import Mathlib

/-!
Shallow embedding of `train.py` from the ProDA repository: the training
driver `train`, the `validation` routine, and the checkpoint policy.

Tensors, network parameters and optimizer internals are opaque to this
orchestration layer, so they are embedded as abstract identifiers; wall-clock
durations and the mean-IoU score computed by the external metrics module are
inputs to the embedded loop.  Rationals stand for Python floats (the claims
under study are about control flow and exact record contents, not rounding).
-/

namespace ProDA

/-- A tensor as seen by the orchestration layer: an opaque payload id plus
the device it currently lives on; `.to(device)` retags the device. -/
structure Tensor where
  id : Nat
  device : String
deriving DecidableEq, Repr

/-- Embedding of `Tensor.to(device)`. -/
def Tensor.to (t : Tensor) (d : String) : Tensor :=
  { t with device := d }

/-- One entry of `optimizer.param_groups`; only the learning rate is read
by this layer (`param_group.get('lr')`). -/
structure ParamGroup where
  lr : ℚ
deriving DecidableEq, Repr

/-- An optimizer: its parameter groups and an opaque `state_dict()`. -/
structure Optimizer where
  param_groups : List ParamGroup
  state_dict : Nat
deriving DecidableEq, Repr

/-- A sub-network: its `__class__.__name__` and an opaque `state_dict()`. -/
structure Net where
  className : String
  state_dict : Nat
deriving DecidableEq, Repr

/-- A learning-rate scheduler: an opaque `state_dict()`. -/
structure Scheduler where
  state_dict : Nat
deriving DecidableEq, Repr

/-- The mutable state of `adaptation_modelv2.CustomModel` that `train.py`
reads and writes: parallel lists of networks / optimizers / schedulers, the
objective-vectors tensor (opaque id), the global iteration counter
`model.iter` and the best-IoU-so-far scalar `model.best_iou`. -/
structure ModelState where
  nets : List Net
  optimizers : List Optimizer
  schedulers : List Scheduler
  objective_vectors : Nat
  iter : Nat
  best_iou : ℚ
deriving DecidableEq, Repr

/-- The configuration options of `train.py` that the embedded code reads. -/
structure Options where
  stage : String
  epochs : Nat
  train_iters : Nat
  bs : Nat
  print_interval : Nat
  val_interval : Nat
  n_class : Nat
  freeze_bn : Bool
  resume_path : String
  logdir : String
  src_dataset : String
  tgt_dataset : String
  model_name : String
deriving DecidableEq, Repr

/-- `os.path.join` for the relative-path shapes used here: drop nothing,
insert a separator unless the left part already ends in one. -/
def pathJoin (a b : String) : String :=
  if a.data.getLast? = some (Char.ofNat 47) then a ++ b else a ++ "/" ++ b

/-- `os.path.dirname`: everything before the final path separator. -/
def dirname (p : String) : String :=
  let parts := p.splitOn "/"
  if parts.length ≤ 1 then "" else String.intercalate "/" parts.dropLast

/-- The prototype path read at startup when `opt.stage == 'stage1'`
(train.py lines 41-45). -/
def prototypePath (opt : Options) : String :=
  pathJoin (dirname opt.resume_path)
    ("prototypes_on_" ++ opt.tgt_dataset ++ "_from_" ++ opt.model_name)

/-- The path of the rolling "current" checkpoint (train.py lines 163-164). -/
def currentModelPath (opt : Options) : String :=
  pathJoin opt.logdir
    ("from_" ++ opt.src_dataset ++ "_to_" ++ opt.tgt_dataset ++ "_on_" ++
      opt.model_name ++ "_current_model.pkl")

/-- The path of the "best" checkpoint (train.py lines 181-182). -/
def bestModelPath (opt : Options) : String :=
  pathJoin opt.logdir
    ("from_" ++ opt.src_dataset ++ "_to_" ++ opt.tgt_dataset ++ "_on_" ++
      opt.model_name ++ "_best_model.pkl")

/-- The per-network entry of a checkpoint record.  `model_state` and
`objective_vectors` are always present; `optimizer_state` and
`scheduler_state` are present (`some`) only in the "best" record, since the
"current" record builder has them commented out (train.py lines 156-157). -/
structure NetSave where
  model_state : Nat
  optimizer_state : Option Nat
  scheduler_state : Option Nat
  objective_vectors : Nat
deriving DecidableEq, Repr

/-- A checkpoint record as passed to `torch.save`: one entry per network
keyed by its class name, plus the top-level `iter` and `best_iou` fields. -/
structure Checkpoint where
  nets : List (String × NetSave)
  iter : Nat
  best_iou : ℚ
deriving DecidableEq, Repr

/-- The learning-rate logging loop at the top of `validation` (train.py
lines 128-132).  The accumulator mirrors the Python local `_learning_rate`:
`none` while the name is still unbound; the inner `for param_group in
v.param_groups` rebinds it to each group in turn, so after the inner loop it
holds the LAST group of `v` (or the value carried over from a previous
optimizer).  Logging with the name still unbound is a `NameError`. -/
def lrLogLoop (nets : List Net) :
    Option ℚ → Nat → List Optimizer → Except String (List (ℚ × String))
  | _, _, [] => Except.ok []
  | last, k, v :: rest =>
    let last2 := v.param_groups.foldl (fun _ pg => some pg.lr) last
    match last2 with
    | none => Except.error "NameError: name _learning_rate is not defined"
    | some lr =>
      match nets[k]? with
      | none => Except.error "IndexError: list index out of range"
      | some net =>
        (lrLogLoop nets last2 (k + 1) rest).map (fun l => (lr, net.className) :: l)

/-- Everything `validation` produces that the rest of the program (or the
filesystem) can observe. -/
structure ValOut where
  lrLogs : Except String (List (ℚ × String))
  currentWrite : String × Checkpoint
  bestWrite : Option (String × Checkpoint)
  newModel : ModelState
  ret : ℚ
deriving Repr

/-- Embedding of `validation(model, logger, datasets, device, iters, opt)`
(train.py lines 126-185).  `meanIoU` abstracts the externally computed
`score["Mean IoU : \x5ct"]` of this call.  The routine logs learning rates,
always builds and saves the "current" record (model params + objective
vectors only, `iter = iters + 1`, `best_iou` = the new score), and when the
new score is at least `model.best_iou` it updates `model.best_iou` and saves
a "best" record that additionally carries optimizer and scheduler state. -/
def validation (model : ModelState) (iters : Nat) (opt : Options)
    (meanIoU : ℚ) : ValOut :=
  let logs := lrLogLoop model.nets none 0 model.optimizers
  let curState : Checkpoint :=
    { nets := model.nets.map (fun net =>
        (net.className,
          { model_state := net.state_dict
            optimizer_state := none
            scheduler_state := none
            objective_vectors := model.objective_vectors })),
      iter := iters + 1,
      best_iou := meanIoU }
  let curWrite := (currentModelPath opt, curState)
  if model.best_iou ≤ meanIoU then
    let model2 := { model with best_iou := meanIoU }
    let bestState : Checkpoint :=
      { nets := model2.nets.enum.map (fun p =>
          (p.2.className,
            { model_state := p.2.state_dict
              optimizer_state := (model2.optimizers[p.1]?).map Optimizer.state_dict
              scheduler_state := (model2.schedulers[p.1]?).map Scheduler.state_dict
              objective_vectors := model2.objective_vectors })),
        iter := iters + 1,
        best_iou := model2.best_iou }
    { lrLogs := logs
      currentWrite := curWrite
      bestWrite := some (bestModelPath opt, bestState)
      newModel := model2
      ret := meanIoU }
  else
    { lrLogs := logs
      currentWrite := curWrite
      bestWrite := none
      newModel := model
      ret := meanIoU }

/-- Python `'key' in data_i.keys()` over a batch record embedded as an
association list. -/
def dictContains (d : List (String × Tensor)) (k : String) : Bool :=
  d.any (fun p => p.1 = k)

/-- Python `data_i[key]`: the bound value, or a `KeyError`. -/
def dictGetItem (d : List (String × Tensor)) (k : String) : Except String Tensor :=
  match d.find? (fun p => p.1 = k) with
  | some p => Except.ok p.2
  | none => Except.error ("KeyError: " ++ k)

/-- Embedding of `data_i[key].to(device) if key in data_i.keys() else None`
(train.py lines 61-63), kept as an `Except` to show the guarded lookup can
never raise. -/
def optField (d : List (String × Tensor)) (key device : String) :
    Except String (Option Tensor) :=
  if dictContains d key then
    (dictGetItem d key).map (fun t => some (t.to device))
  else
    Except.ok none

/-- The value actually bound to `target_lp` / `target_lpsoft`: the guarded
lookup with its (unreachable) error collapsed to `none`. -/
def optFieldD (d : List (String × Tensor)) (key device : String) : Option Tensor :=
  ((optField d key device).toOption).getD none

/-- Modelled from the spec: the `averageMeter` of the external `metrics`
module (not part of this excerpt) accumulates a (sum, count) pair, exposes
their quotient as `avg`, and `reset` returns both to zero. -/
structure averageMeter where
  sum : ℚ
  count : Nat
deriving DecidableEq, Repr

/-- Modelled from the spec: a fresh / reset meter holds (0, 0). -/
def averageMeter.reset : averageMeter :=
  { sum := 0, count := 0 }

/-- Modelled from the spec: `update v` adds `v` to the sum and one to the
count. -/
def averageMeter.update (m : averageMeter) (v : ℚ) : averageMeter :=
  { sum := m.sum + v, count := m.count + 1 }

/-- Modelled from the spec: the running average, zero on an empty meter. -/
def averageMeter.avg (m : averageMeter) : ℚ :=
  if m.count = 0 then 0 else m.sum / (m.count : ℚ)

/-- The stage-dispatched model step invoked by the loop body (train.py
lines 78-87): `step_adv` for `warm_up`, `step` (with the optional
pseudo-labels) for `stage1`, `step_distillation` otherwise. -/
inductive StepCall where
  | step_adv : StepCall
  | step : Option Tensor → Option Tensor → StepCall
  | step_distillation : Option Tensor → StepCall
deriving DecidableEq, Repr

/-- The externally observable events of one training run, in program order:
gradient zeroing, the stage step, a loss-log emission (stage, displayed
epoch, displayed iteration, per-image inference time, per-image load time),
a call into `validation` (with its `iters` argument), the checkpoint writes
it performs, the best-IoU log line after it, and the scheduler step. -/
inductive Event where
  | zeroGrad : Event
  | stageStep : StepCall → Event
  | lossLog : String → Nat → Nat → ℚ → ℚ → Event
  | validationCall : Nat → Event
  | currentWrite : String → Checkpoint → Event
  | bestWrite : String → Checkpoint → Event
  | bestIouLog : ℚ → Event
  | schedulerStep : Event
deriving DecidableEq, Repr

/-- The per-iteration inputs the loop receives from outside this excerpt:
the target batch record (for the optional-field lookups), the measured
inference and data-loading durations, and the mean IoU the metrics module
would compute if validation runs this iteration. -/
structure IterInput where
  data_i : List (String × Tensor)
  inferDur : ℚ
  loadDur : ℚ
  meanIoU : ℚ
deriving DecidableEq, Repr

/-- The loop-carried state of `train`: the model plus the two timing
meters. -/
structure LoopState where
  model : ModelState
  infer_time_meter : averageMeter
  loader_time_meter : averageMeter
deriving DecidableEq, Repr

/-- One iteration of the training loop body (train.py lines 53-124):
extract the optional pseudo-label fields, zero gradients, dispatch the
stage step, increment `model.iter`, update both timing meters, emit the
loss log and reset the meters when `(model.iter + 1) % print_interval == 0`,
run `validation` (passing `iters = model.iter`) and log `model.best_iou`
when `(model.iter + 1) % val_interval == 0`, then step the scheduler. -/
def runIter (opt : Options) (device : String) (epoch : Nat) (inp : IterInput)
    (s : LoopState) : LoopState × List Event :=
  let target_lp := optFieldD inp.data_i "lp" device
  let target_lpsoft := optFieldD inp.data_i "lpsoft" device
  let stepCall :=
    if opt.stage = "warm_up" then StepCall.step_adv
    else if opt.stage = "stage1" then StepCall.step target_lp target_lpsoft
    else StepCall.step_distillation target_lp
  let model1 := { s.model with iter := s.model.iter + 1 }
  let im := s.infer_time_meter.update inp.inferDur
  let lm := s.loader_time_meter.update inp.loadDur
  let logPart :=
    if (model1.iter + 1) % opt.print_interval = 0 then
      ([Event.lossLog opt.stage (epoch + 1) (model1.iter + 1)
          (im.avg / (opt.bs : ℚ)) (lm.avg / (opt.bs : ℚ))],
        averageMeter.reset, averageMeter.reset)
    else ([], im, lm)
  let valPart :=
    if (model1.iter + 1) % opt.val_interval = 0 then
      let v := validation model1 model1.iter opt inp.meanIoU
      ([Event.validationCall model1.iter,
        Event.currentWrite v.currentWrite.1 v.currentWrite.2] ++
        (match v.bestWrite with
          | some w => [Event.bestWrite w.1 w.2]
          | none => []) ++
        [Event.bestIouLog v.newModel.best_iou],
        v.newModel)
    else ([], model1)
  ({ model := valPart.2
     infer_time_meter := logPart.2.1
     loader_time_meter := logPart.2.2 },
    [Event.zeroGrad, Event.stageStep stepCall] ++ logPart.1 ++ valPart.1 ++
      [Event.schedulerStep])

/-- One epoch: the loop body over each batch of the target loader in turn. -/
def runBatches (opt : Options) (device : String) (epoch : Nat) :
    List IterInput → LoopState → LoopState × List Event
  | [], s => (s, [])
  | inp :: rest, s =>
    let r1 := runIter opt device epoch inp s
    let r2 := runBatches opt device epoch rest r1.1
    (r2.1, r1.2 ++ r2.2)

/-- The epoch loop `for epoch in range(start_epoch, opt.epochs)`: each
element of `inputs` is the per-iteration input sequence of one epoch. -/
def runEpochsFrom (opt : Options) (device : String) :
    Nat → List (List IterInput) → LoopState → LoopState × List Event
  | _, [], s => (s, [])
  | epoch, b :: rest, s =>
    let r1 := runBatches opt device epoch b s
    let r2 := runEpochsFrom opt device (epoch + 1) rest r1.1
    (r2.1, r1.2 ++ r2.2)

/-- Embedding of `train(opt, logger)` (train.py lines 27-124).  `fs` is the
filesystem as the startup sees it: the tensor stored at a path, if any.
For `stage1` the prototype file at `prototypePath opt` is loaded with no
handler around it — a missing file is a fatal startup error before any
iteration — and on success its tensor becomes `model.objective_vectors`.
Then `model.iter` is set to 0 and the epoch loop runs with fresh meters. -/
def train (opt : Options) (fs : String → Option Nat) (device : String)
    (model0 : ModelState) (inputs : List (List IterInput)) :
    Except String (LoopState × List Event) :=
  if opt.stage = "stage1" then
    match fs (prototypePath opt) with
    | none =>
      Except.error ("FileNotFoundError: " ++ prototypePath opt)
    | some ov =>
      let model1 := { model0 with objective_vectors := ov, iter := 0 }
      Except.ok (runEpochsFrom opt device 0 inputs
        { model := model1
          infer_time_meter := averageMeter.reset
          loader_time_meter := averageMeter.reset })
  else
    Except.ok (runEpochsFrom opt device 0 inputs
      { model := { model0 with iter := 0 }
        infer_time_meter := averageMeter.reset
        loader_time_meter := averageMeter.reset })

/-- Recognizer for loss-log events in a trace. -/
def isLossLog : Event → Bool
  | Event.lossLog _ _ _ _ _ => true
  | _ => false

/-- Recognizer for validation-call events in a trace. -/
def isValCall : Event → Bool
  | Event.validationCall _ => true
  | _ => false

/-- Recognizer for "current"-checkpoint write events in a trace. -/
def isCurrentWrite : Event → Bool
  | Event.currentWrite _ _ => true
  | _ => false

/-- Recognizer for "best"-checkpoint write events in a trace. -/
def isBestWrite : Event → Bool
  | Event.bestWrite _ _ => true
  | _ => false

/-- Recognizer for best-IoU log events in a trace. -/
def isBestIouLog : Event → Bool
  | Event.bestIouLog _ => true
  | _ => false

/-- The learning rate of an optimizer's LAST parameter group (0 if it has
none) — the value the overwriting inner loop of `validation` leaves in
`_learning_rate`. -/
def lastLr (o : Optimizer) : ℚ :=
  ((o.param_groups.getLast?).map ParamGroup.lr).getD 0

/-- The total number of loop iterations a run performs: the summed length
of the per-epoch input sequences. -/
def totalIters (inputs : List (List IterInput)) : Nat :=
  (inputs.map List.length).sum

/-- A small warm-up configuration: one epoch, logging every iteration,
validating every second iteration. -/
def optW : Options :=
  { stage := "warm_up", epochs := 1, train_iters := 90000, bs := 1,
    print_interval := 1, val_interval := 2, n_class := 19, freeze_bn := false,
    resume_path := "runs/ckpt.pkl", logdir := "logs", src_dataset := "gta5",
    tgt_dataset := "cityscapes", model_name := "deeplabv2" }

/-- A one-network model with no best IoU recorded yet. -/
def modelW : ModelState :=
  { nets := [{ className := "ResNet101", state_dict := 7 }],
    optimizers := [{ param_groups := [{ lr := 1 }], state_dict := 3 }],
    schedulers := [{ state_dict := 4 }],
    objective_vectors := 5, iter := 0, best_iou := 0 }

/-- One epoch of two target batches; each validation would score mean IoU 1. -/
def inputsW : List (List IterInput) :=
  [[{ data_i := [], inferDur := 1, loadDur := 1, meanIoU := 1 },
    { data_i := [], inferDur := 1, loadDur := 1, meanIoU := 1 }]]

/-- The event trace of the `optW` scenario run. -/
def traceW : List Event :=
  (((train optW (fun _ => none) "cpu" modelW inputsW).toOption).map
    (fun r => r.2)).getD []

/-- A configuration that validates every iteration and logs rarely. -/
def optV : Options :=
  { stage := "warm_up", epochs := 1, train_iters := 90000, bs := 1,
    print_interval := 5, val_interval := 1, n_class := 19, freeze_bn := false,
    resume_path := "runs/ckpt.pkl", logdir := "logs", src_dataset := "gta5",
    tgt_dataset := "cityscapes", model_name := "deeplabv2" }

/-- A model whose recorded best IoU (2) exceeds the next validation score. -/
def modelV : ModelState :=
  { nets := [{ className := "ResNet101", state_dict := 7 }],
    optimizers := [{ param_groups := [{ lr := 1 }], state_dict := 3 }],
    schedulers := [{ state_dict := 4 }],
    objective_vectors := 5, iter := 0, best_iou := 2 }

/-- A single iteration whose validation scores mean IoU 1 (below the best). -/
def inputsV : List (List IterInput) :=
  [[{ data_i := [], inferDur := 1, loadDur := 1, meanIoU := 1 }]]

/-- The event trace of the `optV` scenario run. -/
def traceV : List Event :=
  (((train optV (fun _ => none) "cpu" modelV inputsV).toOption).map
    (fun r => r.2)).getD []

/-- A `stage1` configuration, for exercising the prototype-loading path. -/
def optS : Options :=
  { stage := "stage1", epochs := 1, train_iters := 90000, bs := 1,
    print_interval := 1, val_interval := 2, n_class := 19, freeze_bn := false,
    resume_path := "runs/ckpt.pkl", logdir := "logs", src_dataset := "gta5",
    tgt_dataset := "cityscapes", model_name := "deeplabv2" }

/-- A single-iteration input scoring mean IoU 1. -/
def inW1 : IterInput :=
  { data_i := [], inferDur := 1, loadDur := 1, meanIoU := 1 }

/-- The loop state at the start of an `optW` run. -/
def sW0 : LoopState :=
  { model := modelW, infer_time_meter := averageMeter.reset,
    loader_time_meter := averageMeter.reset }

/-- The loop state at the start of an `optV` run. -/
def sV0 : LoopState :=
  { model := modelV, infer_time_meter := averageMeter.reset,
    loader_time_meter := averageMeter.reset }

/-- A batch record carrying a hard pseudo-label but no soft one. -/
def dW : List (String × Tensor) :=
  [("lp", { id := 3, device := "cpu" })]

/-! ### Helper lemmas -/

theorem validation_newModel_iter (m : ModelState) (iters : Nat) (opt : Options)
    (s : ℚ) : (validation m iters opt s).newModel.iter = m.iter := by
  unfold validation
  split <;> rfl

theorem validation_newModel_nets (m : ModelState) (iters : Nat) (opt : Options)
    (s : ℚ) : (validation m iters opt s).newModel.nets = m.nets := by
  unfold validation
  split <;> rfl

theorem validation_ret_eq (m : ModelState) (iters : Nat) (opt : Options)
    (s : ℚ) : (validation m iters opt s).ret = s := by
  unfold validation
  split <;> rfl

theorem validation_best_mono (m : ModelState) (iters : Nat) (opt : Options)
    (s : ℚ) : m.best_iou ≤ (validation m iters opt s).newModel.best_iou := by
  unfold validation
  split <;> rename_i h <;> simp [h]

theorem foldl_lr_overwrite (l : List ParamGroup) (a : Option ℚ) :
    l.foldl (fun _ pg => some pg.lr) a = ((l.getLast?).map ParamGroup.lr).or a := by
  induction l generalizing a with
  | nil => rfl
  | cons x xs ih =>
    cases xs with
    | nil => simp [List.foldl, ih]
    | cons y ys =>
      rw [List.foldl_cons, ih, List.getLast?_cons_cons]
      obtain ⟨z, hz⟩ := Option.isSome_iff_exists.mp
        (List.getLast?_isSome.mpr (List.cons_ne_nil y ys))
      simp [hz]

theorem lrLogLoop_ok (opts : List Optimizer) (nets : List Net) :
    ∀ (k : Nat) (last : Option ℚ),
    k + opts.length ≤ nets.length →
    (∀ o ∈ opts, o.param_groups ≠ []) →
    lrLogLoop nets last k opts =
      Except.ok ((opts.zip (nets.drop k)).map
        (fun p => (lastLr p.1, p.2.className))) := by
  induction opts with
  | nil => intro k last _ _; rfl
  | cons v rest ih =>
    intro k last hlen hne
    have hnev : v.param_groups ≠ [] := hne v (List.mem_cons_self v rest)
    obtain ⟨g, hg⟩ := Option.isSome_iff_exists.mp
      (List.getLast?_isSome.mpr hnev)
    have hk : k < nets.length := by
      have := hlen; simp [List.length_cons] at this; omega
    have hrec := ih (k + 1) (some g.lr)
      (by simp [List.length_cons] at hlen ⊢; omega)
      (fun o ho => hne o (List.mem_cons_of_mem v ho))
    have hdrop := List.drop_eq_getElem_cons hk
    rw [lrLogLoop, foldl_lr_overwrite, hg]
    simp only [Option.map_some']
    have hor2 : (Option.or (some g.lr) last) = some g.lr := rfl
    rw [hor2, List.getElem?_eq_getElem hk]
    simp only [hrec, Except.map]
    rw [hdrop, List.zip_cons_cons]
    simp [lastLr, hg]

theorem runIter_model_iter (opt : Options) (device : String) (epoch : Nat)
    (inp : IterInput) (s : LoopState) :
    (runIter opt device epoch inp s).1.model.iter = s.model.iter + 1 := by
  unfold runIter
  simp only []
  split
  · simp [validation_newModel_iter]
  · rfl

theorem runIter_sched_count (opt : Options) (device : String) (epoch : Nat)
    (inp : IterInput) (s : LoopState) :
    ((runIter opt device epoch inp s).2.count Event.schedulerStep) = 1 := by
  by_cases hlog : (s.model.iter + 1 + 1) % opt.print_interval = 0 <;>
    by_cases hval : (s.model.iter + 1 + 1) % opt.val_interval = 0 <;>
      simp only [runIter, hlog, hval, if_true, if_false, reduceIte] <;>
        cases hb : (validation { s.model with iter := s.model.iter + 1 }
            (s.model.iter + 1) opt inp.meanIoU).bestWrite <;>
          simp [hb, List.count_append, List.count_cons, List.count_nil]

theorem runIter_step_stage1 (opt : Options) (device : String) (epoch : Nat)
    (inp : IterInput) (s : LoopState) (hst : opt.stage = "stage1") :
    ((runIter opt device epoch inp s).2)[1]? =
      some (Event.stageStep (StepCall.step (optFieldD inp.data_i "lp" device)
        (optFieldD inp.data_i "lpsoft" device))) := by
  simp [runIter, hst]

theorem runIter_step_distillation (opt : Options) (device : String)
    (epoch : Nat) (inp : IterInput) (s : LoopState)
    (h1 : opt.stage ≠ "warm_up") (h2 : opt.stage ≠ "stage1") :
    ((runIter opt device epoch inp s).2)[1]? =
      some (Event.stageStep
        (StepCall.step_distillation (optFieldD inp.data_i "lp" device))) := by
  simp [runIter, h1, h2]

theorem runBatches_model_iter (opt : Options) (device : String) (epoch : Nat)
    (l : List IterInput) : ∀ s : LoopState,
    (runBatches opt device epoch l s).1.model.iter = s.model.iter + l.length := by
  induction l with
  | nil => intro s; simp [runBatches]
  | cons a t ih =>
    intro s
    simp only [runBatches]
    rw [ih, runIter_model_iter]
    simp [List.length_cons]
    omega

theorem runBatches_sched_count (opt : Options) (device : String) (epoch : Nat)
    (l : List IterInput) : ∀ s : LoopState,
    ((runBatches opt device epoch l s).2.count Event.schedulerStep) = l.length := by
  induction l with
  | nil => intro s; simp [runBatches]
  | cons a t ih =>
    intro s
    simp only [runBatches]
    rw [List.count_append, ih, runIter_sched_count]
    simp [List.length_cons]
    omega

theorem runEpochsFrom_model_iter (opt : Options) (device : String)
    (L : List (List IterInput)) : ∀ (e : Nat) (s : LoopState),
    (runEpochsFrom opt device e L s).1.model.iter =
      s.model.iter + totalIters L := by
  induction L with
  | nil => intro e s; simp [runEpochsFrom, totalIters]
  | cons b rest ih =>
    intro e s
    simp only [runEpochsFrom]
    rw [ih, runBatches_model_iter]
    simp [totalIters]
    omega

theorem runEpochsFrom_sched_count (opt : Options) (device : String)
    (L : List (List IterInput)) : ∀ (e : Nat) (s : LoopState),
    ((runEpochsFrom opt device e L s).2.count Event.schedulerStep) =
      totalIters L := by
  induction L with
  | nil => intro e s; simp [runEpochsFrom, totalIters]
  | cons b rest ih =>
    intro e s
    simp only [runEpochsFrom]
    rw [List.count_append, ih, runBatches_sched_count]
    simp [totalIters]

theorem optField_ok (d : List (String × Tensor)) (key device : String) :
    optField d key device = Except.ok (optFieldD d key device) := by
  by_cases hc : dictContains d key = true
  · have hex : ∃ p ∈ d, (fun q : String × Tensor => decide (q.1 = key)) p := by
      simpa [dictContains] using hc
    obtain ⟨p, hp⟩ := Option.isSome_iff_exists.mp (List.find?_isSome.mpr hex)
    simp [optField, optFieldD, dictGetItem, hc, hp, Except.map, Except.toOption]
  · have hc2 : dictContains d key = false := by simpa using hc
    simp [optField, optFieldD, dictGetItem, hc2, Except.toOption]

theorem optFieldD_absent (d : List (String × Tensor)) (key device : String)
    (h : dictContains d key = false) : optFieldD d key device = none := by
  simp [optFieldD, optField, h, Except.toOption]

theorem optFieldD_present (d : List (String × Tensor)) (key device : String)
    (t : String × Tensor) (h : d.find? (fun p => p.1 = key) = some t) :
    optFieldD d key device = some (t.2.to device) := by
  have hmem := List.mem_of_find?_eq_some h
  have hpred := List.find?_some h
  have hc : dictContains d key = true := by
    unfold dictContains
    rw [List.any_eq_true]
    exact ⟨t, hmem, hpred⟩
  simp [optFieldD, optField, dictGetItem, hc, h, Except.map, Except.toOption]

theorem validation_currentWrite_iter (m : ModelState) (iters : Nat)
    (opt : Options) (s : ℚ) :
    (validation m iters opt s).currentWrite.2.iter = iters + 1 := by
  unfold validation
  split <;> rfl

theorem validation_currentWrite_best_iou (m : ModelState) (iters : Nat)
    (opt : Options) (s : ℚ) :
    (validation m iters opt s).currentWrite.2.best_iou = s := by
  unfold validation
  split <;> rfl

theorem validation_bestWrite_iter (m : ModelState) (iters : Nat)
    (opt : Options) (s : ℚ) (w : String × Checkpoint)
    (h : (validation m iters opt s).bestWrite = some w) :
    w.2.iter = iters + 1 := by
  unfold validation at h
  split at h
  · simp at h
    rw [← h]
  · simp at h

theorem runIter_currentWrite_iter (opt : Options) (device : String)
    (epoch : Nat) (inp : IterInput) (s : LoopState) (p : String)
    (c : Checkpoint)
    (h : Event.currentWrite p c ∈ (runIter opt device epoch inp s).2) :
    c.iter = s.model.iter + 1 + 1 := by
  by_cases hlog : (s.model.iter + 1 + 1) % opt.print_interval = 0 <;>
    by_cases hval : (s.model.iter + 1 + 1) % opt.val_interval = 0 <;>
      cases hb : (validation { s.model with iter := s.model.iter + 1 }
          (s.model.iter + 1) opt inp.meanIoU).bestWrite <;>
        simp [runIter, hlog, hval, hb] at h <;>
        · rw [h.2]
          exact validation_currentWrite_iter _ _ _ _

theorem runIter_bestWrite_iter (opt : Options) (device : String)
    (epoch : Nat) (inp : IterInput) (s : LoopState) (p : String)
    (c : Checkpoint)
    (h : Event.bestWrite p c ∈ (runIter opt device epoch inp s).2) :
    c.iter = s.model.iter + 1 + 1 := by
  by_cases hlog : (s.model.iter + 1 + 1) % opt.print_interval = 0 <;>
    by_cases hval : (s.model.iter + 1 + 1) % opt.val_interval = 0 <;>
      cases hb : (validation { s.model with iter := s.model.iter + 1 }
          (s.model.iter + 1) opt inp.meanIoU).bestWrite <;>
        simp [runIter, hlog, hval, hb] at h <;>
        · rw [h.2]
          exact validation_bestWrite_iter _ _ _ _ _ hb

theorem runIter_valCall_arg (opt : Options) (device : String)
    (epoch : Nat) (inp : IterInput) (s : LoopState) (n : Nat)
    (h : Event.validationCall n ∈ (runIter opt device epoch inp s).2) :
    n = s.model.iter + 1 := by
  by_cases hlog : (s.model.iter + 1 + 1) % opt.print_interval = 0 <;>
    by_cases hval : (s.model.iter + 1 + 1) % opt.val_interval = 0 <;>
      cases hb : (validation { s.model with iter := s.model.iter + 1 }
          (s.model.iter + 1) opt inp.meanIoU).bestWrite <;>
        simp [runIter, hlog, hval, hb] at h <;>
        · exact h

theorem runIter_bestIouLog_filter (opt : Options) (device : String)
    (epoch : Nat) (inp : IterInput) (s : LoopState)
    (hval : (s.model.iter + 1 + 1) % opt.val_interval = 0) :
    (runIter opt device epoch inp s).2.filter isBestIouLog =
      [Event.bestIouLog ((validation { s.model with iter := s.model.iter + 1 }
        (s.model.iter + 1) opt inp.meanIoU).newModel.best_iou)] := by
  by_cases hlog : (s.model.iter + 1 + 1) % opt.print_interval = 0 <;>
    cases hb : (validation { s.model with iter := s.model.iter + 1 }
        (s.model.iter + 1) opt inp.meanIoU).bestWrite <;>
      simp [runIter, hlog, hval, hb, isBestIouLog, List.filter_append]

theorem stage1_prototype_startup_aux (opt : Options) (device : String)
    (hst : opt.stage = "stage1") (fs : String → Option Nat) (m0 : ModelState)
    (v : Nat) (inputs : List (List IterInput))
    (hfs : fs (prototypePath opt) = some v) :
    train opt fs device m0 inputs =
      Except.ok (runEpochsFrom opt device 0 inputs
        { model := { m0 with objective_vectors := v, iter := 0 }
          infer_time_meter := averageMeter.reset
          loader_time_meter := averageMeter.reset }) := by
  simp [train, hst, hfs]

theorem train_iter_total (opt : Options) (device : String)
    (fs : String → Option Nat) (m0 : ModelState)
    (inputs : List (List IterInput)) (out : LoopState × List Event)
    (h : train opt fs device m0 inputs = Except.ok out) :
    out.1.model.iter = totalIters inputs ∧
    out.2.count Event.schedulerStep = totalIters inputs := by
  by_cases hst : opt.stage = "stage1"
  · cases hfs : fs (prototypePath opt) with
    | none => simp [train, hst, hfs] at h
    | some v =>
      simp [train, hst, hfs] at h
      rw [← h]
      constructor
      · rw [runEpochsFrom_model_iter]
        simp
      · exact runEpochsFrom_sched_count opt device inputs 0 _
  · simp [train, hst] at h
    rw [← h]
    constructor
    · rw [runEpochsFrom_model_iter]
      simp
    · exact runEpochsFrom_sched_count opt device inputs 0 _

/-! ### Claim theorems -/

/-- C1: on every `validation` call the "best" checkpoint is written if and
only if the new mean IoU is at least `model.best_iou` at entry; in that case
`model.best_iou` becomes the new score and the saved record holds, for every
network, its model state, optimizer state and scheduler state together with
the objective vectors, plus the iteration and best-IoU fields; `best_iou`
never decreases across the call. -/
theorem best_checkpoint_policy
    (m : ModelState) (iters : Nat) (opt : Options) (meanIoU : ℚ)
    (hopt : m.nets.length ≤ m.optimizers.length)
    (hsch : m.nets.length ≤ m.schedulers.length) :
    ((validation m iters opt meanIoU).bestWrite.isSome ↔ m.best_iou ≤ meanIoU)
    ∧ (m.best_iou ≤ meanIoU →
        (validation m iters opt meanIoU).newModel.best_iou = meanIoU ∧
        ∃ ck : Checkpoint,
          (validation m iters opt meanIoU).bestWrite =
            some (bestModelPath opt, ck) ∧
          ck.iter = iters + 1 ∧ ck.best_iou = meanIoU ∧
          ck.nets.length = m.nets.length ∧
          ∀ k : Nat, ∀ hk : k < m.nets.length, ∃ op sc,
            m.optimizers[k]? = some op ∧ m.schedulers[k]? = some sc ∧
            ck.nets[k]? = some ((m.nets.get ⟨k, hk⟩).className,
              { model_state := (m.nets.get ⟨k, hk⟩).state_dict,
                optimizer_state := some op.state_dict,
                scheduler_state := some sc.state_dict,
                objective_vectors := m.objective_vectors }))
    ∧ (¬ m.best_iou ≤ meanIoU →
        (validation m iters opt meanIoU).bestWrite = none ∧
        (validation m iters opt meanIoU).newModel = m)
    ∧ m.best_iou ≤ (validation m iters opt meanIoU).newModel.best_iou := by
  refine ⟨?_, ?_, ?_, ?_⟩
  · unfold validation
    split <;> rename_i h <;> simp [h]
  · intro hb
    refine ⟨by simp [validation, hb], ?_⟩
    refine ⟨⟨m.nets.enum.map (fun p =>
        (p.2.className,
          { model_state := p.2.state_dict,
            optimizer_state := (m.optimizers[p.1]?).map Optimizer.state_dict,
            scheduler_state := (m.schedulers[p.1]?).map Scheduler.state_dict,
            objective_vectors := m.objective_vectors })), iters + 1, meanIoU⟩,
      by simp [validation, hb], rfl, rfl, by simp, ?_⟩
    intro k hk
    have hko : k < m.optimizers.length := lt_of_lt_of_le hk hopt
    have hks : k < m.schedulers.length := lt_of_lt_of_le hk hsch
    refine ⟨m.optimizers.get ⟨k, hko⟩, m.schedulers.get ⟨k, hks⟩,
      List.getElem?_eq_getElem hko, List.getElem?_eq_getElem hks, ?_⟩
    simp [List.getElem?_map, List.getElem?_enum, List.getElem?_eq_getElem hk,
      List.getElem?_eq_getElem hko, List.getElem?_eq_getElem hks]
  · intro hb
    simp [validation, hb]
  · unfold validation
    split <;> rename_i h <;> simp [h]

/-- C1 witness: with `modelW` (best IoU 0) and a new score of 1, the best
checkpoint is indeed written. -/
theorem best_checkpoint_policy_witness :
    modelW.best_iou ≤ 1 ∧ (validation modelW 0 optW 1).bestWrite.isSome :=
  ⟨by decide,
    ((best_checkpoint_policy modelW 0 optW 1 (by decide) (by decide)).1).mpr
      (by decide)⟩

/-- C2: every `validation` call writes a "current" checkpoint to
`logdir/from_<src>_to_<tgt>_on_<model_name>_current_model.pkl` whose record
maps each network name to its model state plus the shared objective-vectors
tensor (no optimizer or scheduler state), with top-level `iter = iters + 1`
and `best_iou` equal to the just-computed mean IoU. -/
theorem current_checkpoint_always
    (m : ModelState) (iters : Nat) (opt : Options) (meanIoU : ℚ) :
    (validation m iters opt meanIoU).currentWrite =
      (pathJoin opt.logdir
        ("from_" ++ opt.src_dataset ++ "_to_" ++ opt.tgt_dataset ++ "_on_" ++
          opt.model_name ++ "_current_model.pkl"),
       { nets := m.nets.map (fun net =>
           (net.className,
             { model_state := net.state_dict, optimizer_state := none,
               scheduler_state := none,
               objective_vectors := m.objective_vectors })),
         iter := iters + 1, best_iou := meanIoU }) := by
  unfold validation currentModelPath
  split <;> rfl

/-- C9: the learning-rate logging loop of `validation` logs, for each
optimizer, only the learning rate left by the LAST parameter group (the
inner loop overwrites the variable), and when the first optimizer has no
parameter groups the first log attempt hits an unbound variable. -/
theorem lr_logging_last_group :
    (∀ (m : ModelState) (iters : Nat) (opt : Options) (meanIoU : ℚ),
        (validation m iters opt meanIoU).lrLogs =
          lrLogLoop m.nets none 0 m.optimizers)
    ∧ (∀ m : ModelState, m.optimizers.length ≤ m.nets.length →
        (∀ o ∈ m.optimizers, o.param_groups ≠ []) →
        lrLogLoop m.nets none 0 m.optimizers =
          Except.ok ((m.optimizers.zip m.nets).map
            (fun p => (lastLr p.1, p.2.className))))
    ∧ (∀ (nets : List Net) (o : Optimizer) (rest : List Optimizer),
        o.param_groups = [] →
        lrLogLoop nets none 0 (o :: rest) =
          Except.error "NameError: name _learning_rate is not defined") := by
  refine ⟨?_, ?_, ?_⟩
  · intro m iters opt meanIoU
    unfold validation
    split <;> rfl
  · intro m hlen hne
    have h := lrLogLoop_ok m.optimizers m.nets 0 none (by simpa using hlen) hne
    simpa [List.drop_zero] using h
  · intro nets o rest h
    simp [lrLogLoop, h]

/-- C9 witness: a one-optimizer model logs the last (only) group, and an
optimizer with no groups errors. -/
theorem lr_logging_last_group_witness :
    lrLogLoop modelW.nets none 0 modelW.optimizers =
      Except.ok ((modelW.optimizers.zip modelW.nets).map
        (fun p => (lastLr p.1, p.2.className)))
    ∧ lrLogLoop modelW.nets none 0
        [{ param_groups := [], state_dict := 3 }] =
      Except.error "NameError: name _learning_rate is not defined" :=
  ⟨lr_logging_last_group.2.1 modelW (by decide) (by decide),
   lr_logging_last_group.2.2 modelW.nets { param_groups := [], state_dict := 3 }
     [] rfl⟩

/-- C10: the `iter` field saved in both checkpoint records equals the
`iters` argument plus one, and the driver passes `iters = model.iter` (the
just-incremented completed-iteration count), so the saved value is one more
than `model.iter` at the call. -/
theorem checkpoint_iter_plus_one :
    (∀ (m : ModelState) (iters : Nat) (opt : Options) (meanIoU : ℚ),
        (validation m iters opt meanIoU).currentWrite.2.iter = iters + 1)
    ∧ (∀ (m : ModelState) (iters : Nat) (opt : Options) (meanIoU : ℚ)
        (w : String × Checkpoint),
        (validation m iters opt meanIoU).bestWrite = some w →
        w.2.iter = iters + 1)
    ∧ (∀ (opt : Options) (device : String) (epoch : Nat) (inp : IterInput)
        (s : LoopState) (n : Nat),
        Event.validationCall n ∈ (runIter opt device epoch inp s).2 →
        n = s.model.iter + 1)
    ∧ (∀ (opt : Options) (device : String) (epoch : Nat) (inp : IterInput)
        (s : LoopState) (p : String) (c : Checkpoint),
        Event.currentWrite p c ∈ (runIter opt device epoch inp s).2 →
        c.iter = s.model.iter + 1 + 1)
    ∧ (∀ (opt : Options) (device : String) (epoch : Nat) (inp : IterInput)
        (s : LoopState) (p : String) (c : Checkpoint),
        Event.bestWrite p c ∈ (runIter opt device epoch inp s).2 →
        c.iter = s.model.iter + 1 + 1) :=
  ⟨fun m iters opt meanIoU => validation_currentWrite_iter m iters opt meanIoU,
   fun m iters opt meanIoU w h => validation_bestWrite_iter m iters opt meanIoU w h,
   fun opt device epoch inp s n h => runIter_valCall_arg opt device epoch inp s n h,
   fun opt device epoch inp s p c h => runIter_currentWrite_iter opt device epoch inp s p c h,
   fun opt device epoch inp s p c h => runIter_bestWrite_iter opt device epoch inp s p c h⟩

/-- C10 witness: in the first iteration of the `optW` scenario, validation
is called with `iters = 1` and the written record carries `iter = 2`. -/
theorem checkpoint_iter_plus_one_witness :
    Event.validationCall 1 ∈ (runIter optW "cpu" 0 inW1 sW0).2 ∧
    (1 : Nat) = sW0.model.iter + 1 :=
  ⟨by decide, checkpoint_iter_plus_one.2.2.1 optW "cpu" 0 inW1 sW0 1 (by decide)⟩

/-- C4: the driver emits a stage-tagged loss-log line exactly when the
post-increment iteration counter satisfies
`(model.iter + 1) % print_interval == 0` — i.e. once every
`print_interval` iterations — reporting the timing-meter averages (updated
with this iteration) divided by the batch size, and immediately afterwards
both meters are reset to zero average; on non-logging iterations the meters
keep accumulating. -/
theorem loss_log_every_print_interval (opt : Options) (device : String)
    (epoch : Nat) (inp : IterInput) (s : LoopState) :
    ((s.model.iter + 1 + 1) % opt.print_interval = 0 →
      ((runIter opt device epoch inp s).2.filter isLossLog =
        [Event.lossLog opt.stage (epoch + 1) (s.model.iter + 1 + 1)
          ((s.infer_time_meter.update inp.inferDur).avg / (opt.bs : ℚ))
          ((s.loader_time_meter.update inp.loadDur).avg / (opt.bs : ℚ))]
      ∧ (runIter opt device epoch inp s).1.infer_time_meter = averageMeter.reset
      ∧ (runIter opt device epoch inp s).1.loader_time_meter = averageMeter.reset
      ∧ averageMeter.reset.avg = 0))
    ∧ ((s.model.iter + 1 + 1) % opt.print_interval ≠ 0 →
      ((runIter opt device epoch inp s).2.filter isLossLog = []
      ∧ (runIter opt device epoch inp s).1.infer_time_meter =
          s.infer_time_meter.update inp.inferDur
      ∧ (runIter opt device epoch inp s).1.loader_time_meter =
          s.loader_time_meter.update inp.loadDur)) := by
  constructor
  · intro hlog
    by_cases hval : (s.model.iter + 1 + 1) % opt.val_interval = 0 <;>
      simp only [runIter, hlog, hval, if_true, if_false, reduceIte] <;>
        cases hb : (validation { s.model with iter := s.model.iter + 1 }
            (s.model.iter + 1) opt inp.meanIoU).bestWrite <;>
          simp [hb, isLossLog, List.filter_append, averageMeter.avg,
            averageMeter.reset]
  · intro hlog
    by_cases hval : (s.model.iter + 1 + 1) % opt.val_interval = 0 <;>
      simp only [runIter, hlog, hval, if_true, if_false, reduceIte] <;>
        cases hb : (validation { s.model with iter := s.model.iter + 1 }
            (s.model.iter + 1) opt inp.meanIoU).bestWrite <;>
          simp [hb, isLossLog, List.filter_append]

/-- C4 witness: with `print_interval = 1` the first iteration logs the
per-image times and the meters are reset. -/
theorem loss_log_every_print_interval_witness :
    (sW0.model.iter + 1 + 1) % optW.print_interval = 0 ∧
    (runIter optW "cpu" 0 inW1 sW0).2.filter isLossLog =
      [Event.lossLog optW.stage (0 + 1) (sW0.model.iter + 1 + 1)
        ((sW0.infer_time_meter.update inW1.inferDur).avg / (optW.bs : ℚ))
        ((sW0.loader_time_meter.update inW1.loadDur).avg / (optW.bs : ℚ))] :=
  ⟨by decide,
   ((loss_log_every_print_interval optW "cpu" 0 inW1 sW0).1 (by decide)).1⟩

/-- C5: when `opt.stage == 'stage1'`, `train` reads the prototype file at
`dirname(resume_path)/prototypes_on_<tgt_dataset>_from_<model_name>`; if it
is absent the run fails at startup with an unhandled error before any
iteration (whatever the inputs), and otherwise the loaded tensor becomes
the model's objective vectors for the whole run. -/
theorem stage1_prototype_startup (opt : Options) (device : String)
    (hst : opt.stage = "stage1") :
    (prototypePath opt = pathJoin (dirname opt.resume_path)
      ("prototypes_on_" ++ opt.tgt_dataset ++ "_from_" ++ opt.model_name))
    ∧ (∀ (fs : String → Option Nat) (m0 : ModelState)
        (inputs : List (List IterInput)),
        fs (prototypePath opt) = none →
        train opt fs device m0 inputs =
          Except.error ("FileNotFoundError: " ++ prototypePath opt))
    ∧ (∀ (fs : String → Option Nat) (m0 : ModelState) (v : Nat)
        (inputs : List (List IterInput)),
        fs (prototypePath opt) = some v →
        train opt fs device m0 inputs =
          Except.ok (runEpochsFrom opt device 0 inputs
            { model := { m0 with objective_vectors := v, iter := 0 }
              infer_time_meter := averageMeter.reset
              loader_time_meter := averageMeter.reset })) := by
  refine ⟨rfl, ?_, ?_⟩
  · intro fs m0 inputs hfs
    simp [train, hst, hfs]
  · intro fs m0 v inputs hfs
    exact stage1_prototype_startup_aux opt device hst fs m0 v inputs hfs

/-- C5 witness: with `optS`, a filesystem without the prototype file makes
startup fail, and one with it starts the run with objective vectors 9. -/
theorem stage1_prototype_startup_witness :
    train optS (fun _ => none) "cpu" modelW [] =
      Except.error ("FileNotFoundError: " ++ prototypePath optS)
    ∧ train optS (fun _ => some 9) "cpu" modelW [] =
      Except.ok (runEpochsFrom optS "cpu" 0 []
        { model := { modelW with objective_vectors := 9, iter := 0 }
          infer_time_meter := averageMeter.reset
          loader_time_meter := averageMeter.reset }) :=
  ⟨(stage1_prototype_startup optS "cpu" rfl).2.1 (fun _ => none) modelW [] rfl,
   (stage1_prototype_startup optS "cpu" rfl).2.2 (fun _ => some 9) modelW 9 []
     rfl⟩

/-- C6: the optional batch fields are read through a guarded lookup that
never raises: an absent key yields the `none` sentinel and a present key
yields the value moved to the device, and that is exactly what the stage1
(and distillation) step call receives. -/
theorem optional_fields_null_sentinel :
    (∀ (d : List (String × Tensor)) (key device : String),
        optField d key device = Except.ok (optFieldD d key device))
    ∧ (∀ (d : List (String × Tensor)) (key device : String),
        dictContains d key = false → optFieldD d key device = none)
    ∧ (∀ (d : List (String × Tensor)) (key device : String)
        (t : String × Tensor),
        d.find? (fun p => p.1 = key) = some t →
        optFieldD d key device = some (t.2.to device))
    ∧ (∀ (opt : Options) (device : String) (epoch : Nat) (inp : IterInput)
        (s : LoopState), opt.stage = "stage1" →
        ((runIter opt device epoch inp s).2)[1]? =
          some (Event.stageStep
            (StepCall.step (optFieldD inp.data_i "lp" device)
              (optFieldD inp.data_i "lpsoft" device))))
    ∧ (∀ (opt : Options) (device : String) (epoch : Nat) (inp : IterInput)
        (s : LoopState), opt.stage ≠ "warm_up" → opt.stage ≠ "stage1" →
        ((runIter opt device epoch inp s).2)[1]? =
          some (Event.stageStep
            (StepCall.step_distillation (optFieldD inp.data_i "lp" device)))) :=
  ⟨fun d key device => optField_ok d key device,
   fun d key device h => optFieldD_absent d key device h,
   fun d key device t h => optFieldD_present d key device t h,
   fun opt device epoch inp s hst => runIter_step_stage1 opt device epoch inp s hst,
   fun opt device epoch inp s h1 h2 =>
     runIter_step_distillation opt device epoch inp s h1 h2⟩

/-- C6 witness: in `dW` the key "lpsoft" is absent and maps to `none`,
while "lp" is present and arrives moved to the device. -/
theorem optional_fields_null_sentinel_witness :
    optFieldD dW "lpsoft" "cuda:0" = none ∧
    optFieldD dW "lp" "cuda:0" = some { id := 3, device := "cuda:0" } :=
  ⟨optional_fields_null_sentinel.2.1 dW "lpsoft" "cuda:0" (by decide),
   optional_fields_null_sentinel.2.2.1 dW "lp" "cuda:0"
     ("lp", { id := 3, device := "cpu" }) (by decide)⟩

/-- C7: each loop iteration zeroes gradients before the stage step,
increments `model.iter` by exactly one, and steps the scheduler exactly
once; hence a run of `n` iterations ends with `model.iter = n` and `n`
scheduler steps. -/
theorem iteration_invariants (opt : Options) (device : String) :
    (∀ (epoch : Nat) (inp : IterInput) (s : LoopState),
        (∃ c evs, (runIter opt device epoch inp s).2 =
          Event.zeroGrad :: Event.stageStep c :: evs)
        ∧ (runIter opt device epoch inp s).1.model.iter = s.model.iter + 1
        ∧ (runIter opt device epoch inp s).2.count Event.schedulerStep = 1)
    ∧ (∀ (e : Nat) (L : List (List IterInput)) (s : LoopState),
        (runEpochsFrom opt device e L s).1.model.iter =
          s.model.iter + totalIters L
        ∧ (runEpochsFrom opt device e L s).2.count Event.schedulerStep =
          totalIters L)
    ∧ (∀ (fs : String → Option Nat) (m0 : ModelState)
        (inputs : List (List IterInput)) (out : LoopState × List Event),
        train opt fs device m0 inputs = Except.ok out →
        out.1.model.iter = totalIters inputs ∧
        out.2.count Event.schedulerStep = totalIters inputs) :=
  ⟨fun epoch inp s =>
    ⟨⟨_, _, rfl⟩, runIter_model_iter opt device epoch inp s,
      runIter_sched_count opt device epoch inp s⟩,
   fun e L s =>
    ⟨runEpochsFrom_model_iter opt device L e s,
      runEpochsFrom_sched_count opt device L e s⟩,
   fun fs m0 inputs out h => train_iter_total opt device fs m0 inputs out h⟩

/-- C7 witness: the two-iteration `optW` run ends with `model.iter = 2` and
two scheduler steps. -/
theorem iteration_invariants_witness :
    train optW (fun _ => none) "cpu" modelW inputsW =
      Except.ok (runEpochsFrom optW "cpu" 0 inputsW
        { model := { modelW with iter := 0 }
          infer_time_meter := averageMeter.reset
          loader_time_meter := averageMeter.reset })
    ∧ (runEpochsFrom optW "cpu" 0 inputsW
        { model := { modelW with iter := 0 }
          infer_time_meter := averageMeter.reset
          loader_time_meter := averageMeter.reset }).1.model.iter =
      totalIters inputsW :=
  ⟨rfl,
   ((iteration_invariants optW "cpu").2.2 (fun _ => none) modelW inputsW _
     rfl).1⟩

/-- C8 counterexample: in the `optV` run the validation of iteration 1
returns mean IoU 1, but the post-validation best-IoU log line reports 2
(the stored `model.best_iou`), so the logged value is not the returned
score. -/
theorem best_iou_log_not_return_value :
    (validation { modelV with iter := 1 } 1 optV 1).ret = 1
    ∧ traceV.filter isBestIouLog = [Event.bestIouLog 2]
    ∧ (2 : ℚ) ≠ (1 : ℚ) := by
  refine ⟨by decide, by decide, by decide⟩

/-- C8 (amended): `validation` returns the mean IoU computed in that call;
the driver discards the returned value and its post-validation log line
reports the updated `model.best_iou`, which equals the returned score
exactly in the runs where the new score was at least the previous best. -/
theorem validation_return_and_log :
    (∀ (m : ModelState) (iters : Nat) (opt : Options) (meanIoU : ℚ),
        (validation m iters opt meanIoU).ret = meanIoU)
    ∧ (∀ (opt : Options) (device : String) (epoch : Nat) (inp : IterInput)
        (s : LoopState), (s.model.iter + 1 + 1) % opt.val_interval = 0 →
        (runIter opt device epoch inp s).2.filter isBestIouLog =
          [Event.bestIouLog
            ((validation { s.model with iter := s.model.iter + 1 }
              (s.model.iter + 1) opt inp.meanIoU).newModel.best_iou)])
    ∧ (∀ (m : ModelState) (iters : Nat) (opt : Options) (meanIoU : ℚ),
        m.best_iou ≤ meanIoU →
        (validation m iters opt meanIoU).newModel.best_iou =
          (validation m iters opt meanIoU).ret) :=
  ⟨fun m iters opt meanIoU => validation_ret_eq m iters opt meanIoU,
   fun opt device epoch inp s hval =>
     runIter_bestIouLog_filter opt device epoch inp s hval,
   fun m iters opt meanIoU hb => by simp [validation, hb]⟩

/-- C8 witness: with `val_interval = 1` the first iteration logs exactly
one best-IoU line carrying the post-validation `model.best_iou`. -/
theorem validation_return_and_log_witness :
    (sV0.model.iter + 1 + 1) % optV.val_interval = 0 ∧
    (runIter optV "cpu" 0 inW1 sV0).2.filter isBestIouLog =
      [Event.bestIouLog
        ((validation { sV0.model with iter := sV0.model.iter + 1 }
          (sV0.model.iter + 1) optV inW1.meanIoU).newModel.best_iou)] :=
  ⟨by decide, validation_return_and_log.2.1 optV "cpu" 0 inW1 sV0 (by decide)⟩

/-- C3 counterexample: in the prescribed warm-up scenario the unique
validation runs during iteration 1 (the trigger tests `model.iter + 1`
after the increment), not during iteration 2 as claimed. -/
theorem warmup_scenario_validation_not_at_two :
    traceW.filter isValCall = [Event.validationCall 1]
    ∧ Event.validationCall 2 ∉ traceW := by
  refine ⟨by decide, by decide⟩

/-- C3 (amended): with `stage = warm_up`, one epoch of two iterations,
`print_interval = 1` and `val_interval = 2`, the run emits exactly two
loss-log lines (during iterations 1 and 2) and triggers exactly one
validation — during iteration 1 — which performs exactly one "current"
write and, no prior best existing, exactly one "best" write whose
`best_iou` equals the computed mean IoU 1. -/
theorem warmup_scenario_trace :
    (traceW.filter isLossLog).length = 2
    ∧ traceW.filter isValCall = [Event.validationCall 1]
    ∧ (traceW.filter isCurrentWrite).length = 1
    ∧ traceW.filter isBestWrite =
        [Event.bestWrite (bestModelPath optW)
          { nets := [("ResNet101",
              { model_state := 7, optimizer_state := some 3,
                scheduler_state := some 4, objective_vectors := 5 })],
            iter := 2, best_iou := 1 }] := by
  refine ⟨by decide, by decide, by decide, by decide⟩

end ProDA
